import Mathlib

/-!
Shallow embedding of `auto-routine-nanopore-qc` (BCCDC-PHL), file
`auto_routine_nanopore_qc/core.py`, and proofs about the claims of its
specification.

The embedding models:
  * `find_run_dirs` (core.py lines 13-66): run discovery over a scanned
    parent directory, including the two run-id regular expressions and the
    eligibility-condition dictionary;
  * `analyze_run` (core.py lines 83-150): per-pipeline command
    construction, subprocess dispatch, completion-marker writing and
    work-directory cleanup.

Filesystem facts (directory listings, existence of marker files, success
of recursive deletion) and environment facts (subprocess exit codes,
timestamps) are supplied as explicit inputs, since the Python code reads
them from the OS.
-/

namespace AutoNanoporeQC

/-! ## Character classes used by the two run-id regular expressions

core.py lines 25-26:
  gridion_run_id_regex    = "\d{8}_\d{4}_X\d_[A-Z0-9]{8}_[a-z0-9]{8}$"
  promethion_run_id_regex = "\d{8}_\d{4}_P2S_\d+-\w_[A-Z0-9]{8}_[a-z0-9]{8}$"
(ASCII reading of the character classes.) -/

def isDigitChar (c : Char) : Bool := '0' ≤ c && c ≤ '9'

def isUpperAlnumChar (c : Char) : Bool := ('A' ≤ c && c ≤ 'Z') || isDigitChar c

def isLowerAlnumChar (c : Char) : Bool := ('a' ≤ c && c ≤ 'z') || isDigitChar c

def isWordChar (c : Char) : Bool :=
  ('A' ≤ c && c ≤ 'Z') || ('a' ≤ c && c ≤ 'z') || isDigitChar c || c = '_'

/-- Consume exactly `n` characters satisfying `p`; return the rest. -/
def takeCount (p : Char → Bool) : Nat → List Char → Option (List Char)
  | 0, s => some s
  | _ + 1, [] => none
  | n + 1, c :: s => if p c then takeCount p n s else none

/-- Consume exactly the literal character `x`; return the rest. -/
def takeLit (x : Char) : List Char → Option (List Char)
  | [] => none
  | c :: s => if c = x then some s else none

/-- Consume one-or-more characters satisfying `p`, greedily (the regex
fragments using `+` are each followed by a character outside the class,
so greedy matching without backtracking is faithful). -/
def takeMany1 (p : Char → Bool) : List Char → Option (List Char)
  | [] => none
  | c :: s => if p c then some (s.dropWhile p) else none

/-- Python `re` end anchor `$` (no MULTILINE): end of string, or just
before a single trailing newline. -/
def atLineEnd (s : List Char) : Bool := s = [] || s = ['\n']

/-- Remainder after the GridION pattern body (everything before `$`). -/
def gridionRemainder (s : List Char) : Option (List Char) := do
  let s ← takeCount isDigitChar 8 s
  let s ← takeLit '_' s
  let s ← takeCount isDigitChar 4 s
  let s ← takeLit '_' s
  let s ← takeLit 'X' s
  let s ← takeCount isDigitChar 1 s
  let s ← takeLit '_' s
  let s ← takeCount isUpperAlnumChar 8 s
  let s ← takeLit '_' s
  takeCount isLowerAlnumChar 8 s

/-- `re.match(gridion_run_id_regex, runId)` is not `None`. -/
def matchesGridion (runId : String) : Bool :=
  (gridionRemainder runId.data).elim false atLineEnd

/-- Remainder after the PromethION pattern body (everything before `$`). -/
def promethionRemainder (s : List Char) : Option (List Char) := do
  let s ← takeCount isDigitChar 8 s
  let s ← takeLit '_' s
  let s ← takeCount isDigitChar 4 s
  let s ← takeLit '_' s
  let s ← takeLit 'P' s
  let s ← takeLit '2' s
  let s ← takeLit 'S' s
  let s ← takeLit '_' s
  let s ← takeMany1 isDigitChar s
  let s ← takeLit '-' s
  let s ← takeCount isWordChar 1 s
  let s ← takeLit '_' s
  let s ← takeCount isUpperAlnumChar 8 s
  let s ← takeLit '_' s
  takeCount isLowerAlnumChar 8 s

/-- `re.match(promethion_run_id_regex, runId)` is not `None`. -/
def matchesPromethion (runId : String) : Bool :=
  (promethionRemainder runId.data).elim false atLineEnd

/-- core.py lines 34-38: instrument classification of a directory name
(the `elif` gives the GridION pattern priority). -/
def instrumentTypeOf (runId : String) : String :=
  if matchesGridion runId then "gridion"
  else if matchesPromethion runId then "promethion"
  else "unknown"

/-! ## Data model for discovery -/

/-- One entry of `os.scandir(config[fastq_by_run_dir])`, together with the
filesystem facts the loop body reads about it. -/
structure DirEntry where
  /-- `subdir.name` -/
  name : String
  /-- `os.path.abspath(subdir.path)` -/
  abspath : String
  /-- `subdir.is_dir()` -/
  is_dir : Bool
  /-- `os.path.exists(os.path.join(subdir, 'symlinks_complete.json'))` -/
  symlinks_complete_file_exists : Bool
deriving DecidableEq

/-- Value of a configured pipeline parameter (JSON scalar: string or
integer; `none` at the `Option` level models the `null` sentinel). -/
inductive Value where
  | str (s : String)
  | int (n : Int)
deriving DecidableEq

/-- Python `str(...)` on a parameter value. -/
def valueToString : Value → String
  | .str s => s
  | .int n => toString n

/-- One entry of `config['pipelines']`. -/
structure PipelineConfig where
  pipeline_name : String
  pipeline_version : String
  /-- flag name to configured value; `none` is the `null` sentinel
  meaning "take the value from the run descriptor". -/
  pipeline_parameters : List (String × Option Value)
deriving DecidableEq

/-- The application config keys read by `find_run_dirs` / `analyze_run`. -/
structure Config where
  fastq_by_run_dir : String
  analysis_output_dir : String
  analysis_work_dir : String
  /-- `none` models the key being absent from the config dict. -/
  excluded_runs : Option (List String)
  pipelines : List PipelineConfig
  notification_email_addresses : Option (List String)
  send_notification_emails : Option Bool
deriving DecidableEq

/-- Filesystem facts read by one discovery scan. -/
structure ScanFS where
  /-- the entries returned by `os.scandir(config['fastq_by_run_dir'])` -/
  run_parent_entries : List DirEntry
  /-- names of the entries that exist directly under
  `config['analysis_output_dir']` (used by the
  `os.path.exists(os.path.join(config['analysis_output_dir'], run_id))`
  check) -/
  analysis_output_entries : List String
deriving DecidableEq

/-- Python dict lookup `d[k]` (as an `Option`). -/
def dictLookup {α : Type} (k : String) : List (String × α) → Option α
  | [] => none
  | (k0, v) :: rest => if k0 = k then some v else dictLookup k rest

/-- Python dict assignment `d[k] = v`: overwrite in place, or append. -/
def dictInsert {α : Type} (k : String) (v : α) : List (String × α) → List (String × α)
  | [] => [(k, v)]
  | (k0, v0) :: rest => if k0 = k then (k, v) :: rest else (k0, v0) :: dictInsert k v rest

/-- A run descriptor: the dict yielded by `find_run_dirs` and mutated by
`analyze_run`. All of its values are strings. -/
def RunDict : Type := List (String × String)

/-- core.py lines 41-43: `not_excluded` is `True` unless the config has an
`excluded_runs` key listing the run id. -/
def notExcludedCheck (cfg : Config) (runId : String) : Bool :=
  match cfg.excluded_runs with
  | none => true
  | some l => !(decide (runId ∈ l))

/-- core.py lines 30-66, one iteration of the `for subdir in subdirs`
loop: evaluate the condition dictionary and yield either a run descriptor
or `None`. -/
def stepEntry (cfg : Config) (fs : ScanFS) (check_symlinks_complete : Bool)
    (e : DirEntry) : Option RunDict :=
  let runId := e.name
  let symlinks_complete := e.symlinks_complete_file_exists
  let analysis_not_already_initiated := !(decide (runId ∈ fs.analysis_output_entries))
  let not_excluded := notExcludedCheck cfg runId
  let conditions : List Bool :=
    [e.is_dir,
     matchesGridion runId || matchesPromethion runId,
     analysis_not_already_initiated,
     not_excluded]
    ++ (if check_symlinks_complete then [symlinks_complete] else [])
  if conditions.all id then
    some [("run_dir", e.abspath),
          ("sequencing_run_id", runId),
          ("instrument_type", instrumentTypeOf runId)]
  else
    none

/-- core.py lines 13-66, `find_run_dirs`: one output per scanned entry. -/
def findRunDirs (cfg : Config) (fs : ScanFS) (check_symlinks_complete : Bool) :
    List (Option RunDict) :=
  fs.run_parent_entries.map (stepEntry cfg fs check_symlinks_complete)

/-- core.py lines 69-80, `scan`: defers to `find_run_dirs` with the
default `check_symlinks_complete=True`. -/
def scan (cfg : Config) (fs : ScanFS) : List (Option RunDict) :=
  findRunDirs cfg fs true

/-! ## Data model for the dispatcher (`analyze_run`) -/

/-- Errors `analyze_run` can raise (uncaught Python exceptions). -/
inductive Err where
  /-- `IndexError` from `pipeline['pipeline_name'].split('/')[1]` -/
  | indexError
  /-- `KeyError` from a run-descriptor lookup `run[k]` -/
  | keyError (k : String)
deriving DecidableEq

/-- The JSON log events emitted by `analyze_run` (event payloads as
logged). -/
inductive Event where
  | analysis_started (sequencing_run_id pipeline_command : String)
  | analysis_completed (sequencing_run_id pipeline_command : String)
  | analysis_work_dir_deleted (sequencing_run_id analysis_work_dir_path : String)
  | analysis_failed (sequencing_run_id pipeline_command : String)
  | delete_analysis_work_dir_failed (sequencing_run_id analysis_work_dir_path : String)
deriving DecidableEq

/-- The filesystem state the dispatcher touches: the
`analysis_complete.json` files it writes (path to JSON-object content)
and the set of existing work directories. -/
structure FSState where
  marker_files : List (String × List (String × String))
  dirs : List String
deriving DecidableEq

/-- The external engine creates its work directory (idempotently). -/
def fsCreateDir (fs : FSState) (d : String) : FSState :=
  if decide (d ∈ fs.dirs) then fs else { fs with dirs := fs.dirs ++ [d] }

/-- `shutil.rmtree` effect on a directory that the OS lets us delete. -/
def fsRemoveTree (fs : FSState) (d : String) : FSState :=
  { fs with dirs := fs.dirs.filter (fun x => !(decide (x = d))) }

/-- `open(p, 'w')` + `json.dump(content, f)`: create or overwrite. -/
def fsWriteFile (fs : FSState) (p : String) (content : List (String × String)) : FSState :=
  { fs with marker_files := dictInsert p content fs.marker_files }

/-- Environment facts for one dispatch attempt: the three
`datetime.datetime.now()` readings and the behavior of the external
process and of the work-directory deletion. -/
structure AttemptEnv where
  /-- `datetime.datetime.now().strftime(...)` at core.py line 104 -/
  now_stamp : String
  /-- `datetime.datetime.now().isoformat()` at line 134 -/
  ts_start : String
  /-- `datetime.datetime.now().isoformat()` at line 136 -/
  ts_complete : String
  /-- exit status of `subprocess.run(pipeline_command, ...)` -/
  exit_code : Nat
  /-- whether the OS refuses the recursive deletion at line 145
  (`shutil.rmtree(..., ignore_errors=True)` swallows the error) -/
  rmtree_fails : Bool
deriving DecidableEq

/-- Observable state threaded through the pipeline loop of
`analyze_run`: the (mutated) run descriptor, the filesystem, the emitted
log events and the commands handed to `subprocess.run`. -/
structure DispatchState where
  run : List (String × String)
  fs : FSState
  events : List Event
  invocations : List (List Value)
deriving DecidableEq

/-- `run[k]`, raising `KeyError` when absent. -/
def dictGet (d : List (String × String)) (k : String) : Except Err String :=
  match dictLookup k d with
  | some v => .ok v
  | none => .error (.keyError k)

/-- `os.path.join` for the absolute-base / relative-tail joins the code
performs (all bases in the config are absolute paths, so the enclosing
`os.path.abspath` calls are the identity). -/
def joinPath (a b : String) : String := a ++ "/" ++ b

/-- Python `s.split(sep)` for a one-character separator. -/
def pySplit (sep : Char) : List Char → List (List Char)
  | [] => [[]]
  | c :: rest =>
    let gs := pySplit sep rest
    if c = sep then [] :: gs
    else
      match gs with
      | g :: tl => (c :: g) :: tl
      | [] => [[c]]

/-- Python `s.replace(a, b)` for one-character arguments. -/
def pyReplaceChar (a b : Char) (s : List Char) : List Char :=
  s.map (fun c => if c = a then b else c)

/-- core.py line 102: `pipeline['pipeline_name'].split('/')[1].replace('_', '-')`;
the index raises `IndexError` when the name has no `/`. -/
def pipelineShortName (name : String) : Except Err String :=
  match pySplit '/' name.data with
  | _ :: g :: _ => .ok (String.mk (pyReplaceChar '_' '-' g))
  | _ => .error .indexError

/-- core.py line 103: `'.'.join(pipeline['pipeline_version'].split('.')[0:2])`. -/
def pipelineMinorVersion (version : String) : String :=
  String.mk (List.intercalate ['.'] ((pySplit '.' version.data).take 2))

/-- core.py line 106: the pipeline's output directory for a run. -/
def analysisOutputDirFor (cfg : Config) (runId short minor : String) : String :=
  joinPath (joinPath cfg.analysis_output_dir runId) (short ++ "-" ++ minor ++ "-output")

/-- core.py line 109: the per-attempt work directory (run id plus the
`now` timestamp, so unique per attempt). -/
def workDirOf (cfg : Config) (runId stamp : String) : String :=
  joinPath cfg.analysis_work_dir ("work-" ++ runId ++ "-" ++ stamp)

/-- core.py line 110: the requested trace file location. -/
def tracePathFor (outdir runId : String) : String :=
  joinPath outdir (runId ++ "_trace.tsv")

/-- core.py line 137: the completion-marker location. -/
def markerPathFor (outdir : String) : String :=
  joinPath outdir "analysis_complete.json"

/-- core.py lines 138-141: the completion-marker JSON object (exactly the
two timestamp fields). -/
def markerContent (env : AttemptEnv) : List (String × String) :=
  [("timestamp_analysis_start", env.ts_start),
   ("timestamp_analysis_complete", env.ts_complete)]

/-- core.py lines 107-108: the dispatcher writes `fastq_input = run[run_dir]`
and `outdir = analysis_output_dir` onto the run descriptor. -/
def updateRunFields (run : List (String × String)) (outdir : String) :
    Except Err (List (String × String)) :=
  match dictGet run "run_dir" with
  | .error e => .error e
  | .ok rd => .ok (dictInsert "outdir" outdir (dictInsert "fastq_input" rd run))

/-- core.py lines 125-128: a `null` configured value resolves to the run
descriptor's field of the same name; a concrete value is used as-is. -/
def resolveParam (run : List (String × String)) (flag : String)
    (config_value : Option Value) : Except Err Value :=
  match config_value with
  | none => (dictGet run flag).map Value.str
  | some v => .ok v

/-- Python `str(...)` coercion of one command-line element. -/
def coerceValue (v : Value) : Value := .str (valueToString v)

/-- core.py lines 124-130: append `--flag value` pairs; note the
`pipeline_command = list(map(str, pipeline_command))` sits inside the
loop body, so the whole list is re-coerced after each parameter. -/
def addParams (run : List (String × String)) :
    List (String × Option Value) → List Value → Except Err (List Value)
  | [], cmd => .ok cmd
  | (flag, config_value) :: rest, cmd =>
    match resolveParam run flag config_value with
    | .error e => .error e
    | .ok v => addParams run rest ((cmd ++ [.str ("--" ++ flag), v]).map coerceValue)

/-- core.py lines 96-99: notification addresses default to the empty
list when the config key is absent. -/
def notificationAddresses (cfg : Config) : List String :=
  match cfg.notification_email_addresses with
  | some l => l
  | none => []

/-- core.py lines 112-121: the fixed head of the nextflow invocation. -/
def baseCommand (p : PipelineConfig) (home workdir tracePath : String) : List Value :=
  [.str "nextflow", .str "run", .str p.pipeline_name,
   .str "-r", .str p.pipeline_version,
   .str "-profile", .str "conda",
   .str "--cache", .str (joinPath home ".conda/envs"),
   .str "-work-dir", .str workdir,
   .str "-with-trace", .str tracePath]

/-- core.py lines 122-123: optional `-with-notification` flag. -/
def withEmailFlag (cfg : Config) (cmd : List Value) : List Value :=
  match cfg.send_notification_emails with
  | some true => cmd ++ [.str "-with-notification",
                         .str (String.intercalate "," (notificationAddresses cfg))]
  | _ => cmd

/-- core.py lines 100-150, one iteration of the `for pipeline in
config['pipelines']` loop. Returns the observable state together with
the uncaught exception, if any; on an exception the state reflects the
mutations performed before the raising line. -/
def stepPipeline (cfg : Config) (home : String) (env : AttemptEnv)
    (s : DispatchState) (p : PipelineConfig) : DispatchState × Option Err :=
  match pipelineShortName p.pipeline_name with
  | .error e => (s, some e)
  | .ok short =>
    let minor := pipelineMinorVersion p.pipeline_version
    match dictGet s.run "sequencing_run_id" with
    | .error e => (s, some e)
    | .ok runId =>
      let outdir := analysisOutputDirFor cfg runId short minor
      match updateRunFields s.run outdir with
      | .error e => (s, some e)
      | .ok run2 =>
        let workdir := workDirOf cfg runId env.now_stamp
        match addParams run2 p.pipeline_parameters
            (withEmailFlag cfg (baseCommand p home workdir (tracePathFor outdir runId))) with
        | .error e => ({ s with run := run2 }, some e)
        | .ok cmd =>
          let joined := String.intercalate " " (cmd.map valueToString)
          let events1 := s.events ++ [Event.analysis_started runId joined]
          let fs1 := fsCreateDir s.fs workdir
          let invocations1 := s.invocations ++ [cmd]
          if env.exit_code = 0 then
            let fs2 := fsWriteFile fs1 (markerPathFor outdir) (markerContent env)
            let fs3 := if env.rmtree_fails then fs2 else fsRemoveTree fs2 workdir
            ({ run := run2, fs := fs3,
               events := events1 ++ [Event.analysis_completed runId joined,
                                     Event.analysis_work_dir_deleted runId workdir],
               invocations := invocations1 }, none)
          else
            ({ run := run2, fs := fs1,
               events := events1 ++ [Event.analysis_failed runId joined],
               invocations := invocations1 }, none)

/-- The pipeline loop; `i` indexes the attempt environments. An uncaught
exception aborts the remaining pipelines. -/
def analyzeRunAux (cfg : Config) (home : String) (envF : Nat → AttemptEnv) :
    List PipelineConfig → Nat → DispatchState → DispatchState × Option Err
  | [], _, s => (s, none)
  | p :: rest, i, s =>
    match stepPipeline cfg home (envF i) s p with
    | (s2, none) => analyzeRunAux cfg home envF rest (i + 1) s2
    | (s2, some e) => (s2, some e)

/-- core.py lines 83-150, `analyze_run`. -/
def analyzeRun (cfg : Config) (home : String) (envF : Nat → AttemptEnv)
    (run : List (String × String)) (fs : FSState) : DispatchState × Option Err :=
  analyzeRunAux cfg home envF cfg.pipelines 0
    { run := run, fs := fs, events := [], invocations := [] }

/-! ## Example inputs used by the witness and counterexample theorems -/

def exGridionName : String := "20230101_1200_X1_ABCDEFGH_abcdefgh"

def exPromethionName : String := "20240506_0930_P2S_12-A_QRSTUVW0_qrstuvw0"

def exEntryReady : DirEntry :=
  { name := exGridionName
    abspath := "/data/fastq/" ++ exGridionName
    is_dir := true
    symlinks_complete_file_exists := true }

def exEntryInitiated : DirEntry :=
  { name := exPromethionName
    abspath := "/data/fastq/" ++ exPromethionName
    is_dir := true
    symlinks_complete_file_exists := true }

def exEntryUnknown : DirEntry :=
  { name := "sample_sheets"
    abspath := "/data/fastq/sample_sheets"
    is_dir := true
    symlinks_complete_file_exists := true }

def exPipeline : PipelineConfig :=
  { pipeline_name := "BCCDC-PHL/routine_nanopore_qc"
    pipeline_version := "0.1.3"
    pipeline_parameters :=
      [("fastq_input", none), ("outdir", none), ("threads", some (.int 4))] }

def exConfig : Config :=
  { fastq_by_run_dir := "/data/fastq"
    analysis_output_dir := "/analysis"
    analysis_work_dir := "/scratch"
    excluded_runs := none
    pipelines := [exPipeline]
    notification_email_addresses := none
    send_notification_emails := none }

def exScanFS : ScanFS :=
  { run_parent_entries := [exEntryReady, exEntryInitiated, exEntryUnknown]
    analysis_output_entries := [exPromethionName] }

/-- The run descriptor `find_run_dirs` yields for `exEntryReady`. -/
def exRun : List (String × String) :=
  [("run_dir", "/data/fastq/" ++ exGridionName),
   ("sequencing_run_id", exGridionName),
   ("instrument_type", "gridion")]

def exDispatchStart : DispatchState :=
  { run := exRun, fs := { marker_files := [], dirs := [] },
    events := [], invocations := [] }

/-- Environment for a successful attempt (exit 0, deletion works). -/
def exEnvOk : AttemptEnv :=
  { now_stamp := "20230102030405", ts_start := "2023-01-02T03:04:05"
    ts_complete := "2023-01-02T03:44:05", exit_code := 0, rmtree_fails := false }

/-- Environment for a failing attempt (non-zero exit). -/
def exEnvBad : AttemptEnv :=
  { now_stamp := "20230102030405", ts_start := "2023-01-02T03:04:05"
    ts_complete := "2023-01-02T03:44:05", exit_code := 1, rmtree_fails := false }

/-- Environment where the process succeeds but the OS refuses the
work-directory deletion. -/
def exEnvRmFail : AttemptEnv :=
  { now_stamp := "20230102030405", ts_start := "2023-01-02T03:04:05"
    ts_complete := "2023-01-02T03:44:05", exit_code := 0, rmtree_fails := true }

/-- Recognizer for the `delete_analysis_work_dir_failed` log event. -/
def isDeleteFailedEvent : Event → Bool
  | .delete_analysis_work_dir_failed _ _ => true
  | _ => false

/-- A pipeline whose `pipeline_name` contains no `/` separator. -/
def exBadPipeline : PipelineConfig :=
  { pipeline_name := "routine-nanopore-qc"
    pipeline_version := "0.1.3"
    pipeline_parameters := [] }

def exBadConfig : Config :=
  { exConfig with pipelines := [exBadPipeline] }

/-! ## Helper lemmas -/

theorem dictLookup_dictInsert_self {α : Type} (k : String) (v : α)
    (d : List (String × α)) : dictLookup k (dictInsert k v d) = some v := by
  induction d with
  | nil => simp [dictInsert, dictLookup]
  | cons hd tl ih =>
    obtain ⟨k0, v0⟩ := hd
    by_cases h : k0 = k <;> simp [dictInsert, dictLookup, h, ih]

theorem dictLookup_dictInsert_ne {α : Type} (k k' : String) (v : α)
    (d : List (String × α)) (h : k' ≠ k) :
    dictLookup k' (dictInsert k v d) = dictLookup k' d := by
  induction d with
  | nil => simp [dictInsert, dictLookup, Ne.symm h]
  | cons hd tl ih =>
    obtain ⟨k0, v0⟩ := hd
    by_cases h0 : k0 = k
    · simp [dictInsert, dictLookup, h0, Ne.symm h]
    · simp [dictInsert, dictLookup, h0, ih]

theorem dictGet_eq_ok_iff (d : List (String × String)) (k v : String) :
    dictGet d k = .ok v ↔ dictLookup k d = some v := by
  unfold dictGet
  cases h : dictLookup k d <;> simp

theorem dictGet_error_is_keyError (d : List (String × String)) (k : String)
    (e : Err) (h : dictGet d k = .error e) : e = .keyError k := by
  unfold dictGet at h
  cases h2 : dictLookup k d <;> rw [h2] at h <;> simp_all

theorem mem_fsCreateDir_self (fs : FSState) (d : String) :
    d ∈ (fsCreateDir fs d).dirs := by
  unfold fsCreateDir
  by_cases h : d ∈ fs.dirs <;> simp [h]

theorem not_mem_fsRemoveTree_self (fs : FSState) (d : String) :
    d ∉ (fsRemoveTree fs d).dirs := by
  simp [fsRemoveTree, List.mem_filter]

theorem fsWriteFile_dirs (fs : FSState) (p : String)
    (c : List (String × String)) : (fsWriteFile fs p c).dirs = fs.dirs := rfl

theorem fsRemoveTree_marker_files (fs : FSState) (d : String) :
    (fsRemoveTree fs d).marker_files = fs.marker_files := rfl

theorem fsCreateDir_marker_files (fs : FSState) (d : String) :
    (fsCreateDir fs d).marker_files = fs.marker_files := by
  unfold fsCreateDir
  by_cases h : d ∈ fs.dirs <;> simp [h]

theorem fsWriteFile_marker_files (fs : FSState) (p : String)
    (c : List (String × String)) :
    (fsWriteFile fs p c).marker_files = dictInsert p c fs.marker_files := rfl

theorem updateRunFields_ok_iff (run : List (String × String)) (od : String)
    (out : List (String × String)) :
    updateRunFields run od = .ok out ↔
      ∃ rd, dictLookup "run_dir" run = some rd
        ∧ out = dictInsert "outdir" od (dictInsert "fastq_input" rd run) := by
  unfold updateRunFields dictGet
  cases h2 : dictLookup "run_dir" run <;> simp [eq_comm]

/-- Inversion for a pipeline-loop iteration that raises no exception:
names every intermediate value of core.py lines 102-131 and gives the
exact resulting state for both exit cases. -/
theorem stepPipeline_ok_spec (cfg : Config) (home : String) (env : AttemptEnv)
    (s s' : DispatchState) (p : PipelineConfig)
    (hstep : stepPipeline cfg home env s p = (s', none)) :
    ∃ short runId rd cmd,
      pipelineShortName p.pipeline_name = .ok short
      ∧ dictLookup "sequencing_run_id" s.run = some runId
      ∧ dictLookup "run_dir" s.run = some rd
      ∧ addParams
          (dictInsert "outdir"
            (analysisOutputDirFor cfg runId short (pipelineMinorVersion p.pipeline_version))
            (dictInsert "fastq_input" rd s.run))
          p.pipeline_parameters
          (withEmailFlag cfg (baseCommand p home (workDirOf cfg runId env.now_stamp)
            (tracePathFor
              (analysisOutputDirFor cfg runId short (pipelineMinorVersion p.pipeline_version))
              runId)))
          = .ok cmd
      ∧ s' = (if env.exit_code = 0 then
               { run := dictInsert "outdir"
                   (analysisOutputDirFor cfg runId short (pipelineMinorVersion p.pipeline_version))
                   (dictInsert "fastq_input" rd s.run)
                 fs :=
                   (if env.rmtree_fails then
                     fsWriteFile (fsCreateDir s.fs (workDirOf cfg runId env.now_stamp))
                       (markerPathFor (analysisOutputDirFor cfg runId short
                         (pipelineMinorVersion p.pipeline_version)))
                       (markerContent env)
                   else
                     fsRemoveTree
                       (fsWriteFile (fsCreateDir s.fs (workDirOf cfg runId env.now_stamp))
                         (markerPathFor (analysisOutputDirFor cfg runId short
                           (pipelineMinorVersion p.pipeline_version)))
                         (markerContent env))
                       (workDirOf cfg runId env.now_stamp))
                 events := s.events ++
                   [Event.analysis_started runId (String.intercalate " " (cmd.map valueToString)),
                    Event.analysis_completed runId (String.intercalate " " (cmd.map valueToString)),
                    Event.analysis_work_dir_deleted runId (workDirOf cfg runId env.now_stamp)]
                 invocations := s.invocations ++ [cmd] }
             else
               { run := dictInsert "outdir"
                   (analysisOutputDirFor cfg runId short (pipelineMinorVersion p.pipeline_version))
                   (dictInsert "fastq_input" rd s.run)
                 fs := fsCreateDir s.fs (workDirOf cfg runId env.now_stamp)
                 events := s.events ++
                   [Event.analysis_started runId (String.intercalate " " (cmd.map valueToString)),
                    Event.analysis_failed runId (String.intercalate " " (cmd.map valueToString))]
                 invocations := s.invocations ++ [cmd] }) := by
  unfold stepPipeline at hstep
  cases hsn : pipelineShortName p.pipeline_name with
  | error e => rw [hsn] at hstep; simp at hstep
  | ok short =>
  rw [hsn] at hstep
  cases hg1 : dictGet s.run "sequencing_run_id" with
  | error e => rw [hg1] at hstep; simp at hstep
  | ok runId =>
  rw [hg1] at hstep
  simp only at hstep
  cases hup : updateRunFields s.run
      (analysisOutputDirFor cfg runId short (pipelineMinorVersion p.pipeline_version)) with
  | error e => rw [hup] at hstep; simp at hstep
  | ok run2 =>
  rw [hup] at hstep
  simp only at hstep
  rw [updateRunFields_ok_iff] at hup
  obtain ⟨rd, hrd, hrun2⟩ := hup
  cases hap : addParams run2 p.pipeline_parameters
      (withEmailFlag cfg (baseCommand p home (workDirOf cfg runId env.now_stamp)
        (tracePathFor
          (analysisOutputDirFor cfg runId short (pipelineMinorVersion p.pipeline_version))
          runId))) with
  | error e => rw [hap] at hstep; simp at hstep
  | ok cmd =>
  rw [hap] at hstep
  simp only at hstep
  refine ⟨short, runId, rd, cmd, rfl, (dictGet_eq_ok_iff _ _ _).mp hg1, hrd,
    hrun2 ▸ hap, ?_⟩
  by_cases hexit : env.exit_code = 0
  · rw [if_pos hexit]
    rw [if_pos hexit] at hstep
    rw [← hrun2]
    have h1 := (Prod.mk.injEq _ _ _ _ ▸ hstep).1.symm
    simpa [List.append_assoc] using h1
  · rw [if_neg hexit]
    rw [if_neg hexit] at hstep
    rw [← hrun2]
    have h1 := (Prod.mk.injEq _ _ _ _ ▸ hstep).1.symm
    simpa [List.append_assoc] using h1

/-- Characterization of one discovery-loop iteration: a run descriptor is
yielded exactly when all applicable conditions hold. -/
theorem stepEntry_isSome_iff (cfg : Config) (fs : ScanFS) (check : Bool)
    (e : DirEntry) :
    (stepEntry cfg fs check e).isSome = true ↔
      (e.is_dir = true
       ∧ (matchesGridion e.name = true ∨ matchesPromethion e.name = true)
       ∧ e.name ∉ fs.analysis_output_entries
       ∧ (∀ l, cfg.excluded_runs = some l → e.name ∉ l)
       ∧ (check = true → e.symlinks_complete_file_exists = true)) := by
  unfold stepEntry notExcludedCheck
  cases check <;> cases hex : cfg.excluded_runs <;>
    simp [hex, List.all, apply_ite Option.isSome]

/-! ## Claims about run discovery -/

/-- C1: for every entry of the scanned parent directory, discovery yields
a ready run descriptor if and only if every applicable condition is true
(`is_directory`, matches one of the two run-id formats,
`analysis_not_already_initiated`, `not_excluded`, and `symlinks_complete`
when that check is enabled); otherwise it yields the skipped placeholder
`none`, so there is no partial-eligibility state. -/
theorem C1_discovery_yields_iff_all_conditions (cfg : Config) (fs : ScanFS)
    (check : Bool) (i : Nat) (h : i < fs.run_parent_entries.length)
    (h2 : i < (findRunDirs cfg fs check).length) :
    ((findRunDirs cfg fs check).get ⟨i, h2⟩).isSome = true ↔
      (let e := fs.run_parent_entries.get ⟨i, h⟩
       e.is_dir = true
       ∧ (matchesGridion e.name = true ∨ matchesPromethion e.name = true)
       ∧ e.name ∉ fs.analysis_output_entries
       ∧ (∀ l, cfg.excluded_runs = some l → e.name ∉ l)
       ∧ (check = true → e.symlinks_complete_file_exists = true)) := by
  have hmap : (findRunDirs cfg fs check).get ⟨i, h2⟩
      = stepEntry cfg fs check (fs.run_parent_entries.get ⟨i, h⟩) := by
    simp [findRunDirs]
  rw [hmap]
  exact stepEntry_isSome_iff cfg fs check _

/-- Witness for C1 at a concrete scan: the first entry satisfies all the
conditions and is yielded; instantiates the theorem at index 0. -/
theorem C1_witness :
    ((findRunDirs exConfig exScanFS true).get ⟨0, by decide⟩).isSome = true := by
  rw [C1_discovery_yields_iff_all_conditions exConfig exScanFS true 0
    (by decide) (by decide)]
  decide

/-- C4: a run id that already has an entry under the analysis output root
is never yielded as ready, regardless of every other condition; the check
is on the run id alone (the model consults only the run id against the
names existing under `analysis_output_dir`, never the pipeline list). -/
theorem C4_already_initiated_never_ready (cfg : Config) (fs : ScanFS)
    (check : Bool) (i : Nat) (h : i < fs.run_parent_entries.length)
    (h2 : i < (findRunDirs cfg fs check).length)
    (hmem : (fs.run_parent_entries.get ⟨i, h⟩).name ∈ fs.analysis_output_entries) :
    (findRunDirs cfg fs check).get ⟨i, h2⟩ = none := by
  have hmap : (findRunDirs cfg fs check).get ⟨i, h2⟩
      = stepEntry cfg fs check (fs.run_parent_entries.get ⟨i, h⟩) := by
    simp [findRunDirs]
  rw [hmap]
  cases hstep : stepEntry cfg fs check (fs.run_parent_entries.get ⟨i, h⟩) with
  | none => rfl
  | some r =>
    have : (stepEntry cfg fs check (fs.run_parent_entries.get ⟨i, h⟩)).isSome = true := by
      rw [hstep]; rfl
    rw [stepEntry_isSome_iff] at this
    exact absurd hmem this.2.2.1

/-- Witness for C4: the second concrete entry (a well-formed PromethION
run) is skipped because its run id already exists under the output root. -/
theorem C4_witness :
    (findRunDirs exConfig exScanFS true).get ⟨1, by decide⟩ = none :=
  C4_already_initiated_never_ready exConfig exScanFS true 1
    (by decide) (by decide) (by decide)

/-- C6: a name matching the GridION pattern is classified `gridion`; one
matching the PromethION pattern is classified `promethion` (GridION takes
priority when both would match); a name matching neither is classified
`unknown` and such an entry is never yielded as ready. -/
theorem C6_instrument_classification (cfg : Config) (fs : ScanFS)
    (check : Bool) (e : DirEntry) :
    (matchesGridion e.name = true → instrumentTypeOf e.name = "gridion")
    ∧ (matchesGridion e.name = false → matchesPromethion e.name = true →
        instrumentTypeOf e.name = "promethion")
    ∧ (matchesGridion e.name = false → matchesPromethion e.name = false →
        instrumentTypeOf e.name = "unknown" ∧ stepEntry cfg fs check e = none) := by
  refine ⟨fun hg => by simp [instrumentTypeOf, hg],
          fun hg hp => by simp [instrumentTypeOf, hg, hp],
          fun hg hp => ⟨by simp [instrumentTypeOf, hg, hp], ?_⟩⟩
  cases hstep : stepEntry cfg fs check e with
  | none => rfl
  | some r =>
    have : (stepEntry cfg fs check e).isSome = true := by rw [hstep]; rfl
    rw [stepEntry_isSome_iff] at this
    rcases this.2.1 with h | h
    · rw [hg] at h; exact absurd h (by simp)
    · rw [hp] at h; exact absurd h (by simp)

/-- Witness for C6: discharges the neither-pattern branch at the concrete
entry named `sample_sheets` and the GridION branch at a concrete GridION
name. -/
theorem C6_witness :
    instrumentTypeOf exEntryUnknown.name = "unknown"
    ∧ stepEntry exConfig exScanFS true exEntryUnknown = none
    ∧ instrumentTypeOf exGridionName = "gridion" := by
  refine ⟨?_, ?_, ?_⟩
  · exact ((C6_instrument_classification exConfig exScanFS true
      exEntryUnknown).2.2 (by decide) (by decide)).1
  · exact ((C6_instrument_classification exConfig exScanFS true
      exEntryUnknown).2.2 (by decide) (by decide)).2
  · exact (C6_instrument_classification exConfig exScanFS true
      exEntryReady).1 (by decide)

/-- One pipeline-loop iteration that raises nothing lets the loop proceed
to the remaining pipelines from the updated state. -/
theorem analyzeRunAux_cons_ok (cfg : Config) (home : String)
    (envF : Nat → AttemptEnv) (p : PipelineConfig) (rest : List PipelineConfig)
    (i : Nat) (s s2 : DispatchState)
    (h : stepPipeline cfg home (envF i) s p = (s2, none)) :
    analyzeRunAux cfg home envF (p :: rest) i s
      = analyzeRunAux cfg home envF rest (i + 1) s2 := by
  simp only [analyzeRunAux, h]

/-! ## Claims about the dispatcher -/

/-- C2: for every dispatch of one configured pipeline where the external
process exits 0 (and the OS permits the work-directory deletion, whose
errors the code ignores), the dispatcher writes `analysis_complete.json`
containing exactly the two timestamps recorded at start and completion
into the pipeline's output directory, and the attempt's work directory no
longer exists afterward. -/
theorem C2_success_writes_marker_and_removes_workdir
    (cfg : Config) (home : String) (env : AttemptEnv) (s s' : DispatchState)
    (p : PipelineConfig) (short runId : String)
    (hstep : stepPipeline cfg home env s p = (s', none))
    (hexit : env.exit_code = 0)
    (hrm : env.rmtree_fails = false)
    (hshort : pipelineShortName p.pipeline_name = .ok short)
    (hrid : dictLookup "sequencing_run_id" s.run = some runId) :
    dictLookup
      (markerPathFor
        (analysisOutputDirFor cfg runId short (pipelineMinorVersion p.pipeline_version)))
      s'.fs.marker_files
      = some [("timestamp_analysis_start", env.ts_start),
              ("timestamp_analysis_complete", env.ts_complete)]
    ∧ workDirOf cfg runId env.now_stamp ∉ s'.fs.dirs := by
  obtain ⟨short2, runId2, rd, cmd, hsn2, hrid2, hrd2, hap2, hs'⟩ :=
    stepPipeline_ok_spec cfg home env s s' p hstep
  rw [hshort] at hsn2
  injection hsn2 with hshortEq
  rw [hrid] at hrid2
  injection hrid2 with hridEq
  subst hshortEq hridEq
  rw [if_pos hexit] at hs'
  rw [hrm] at hs'
  simp only [Bool.false_eq_true, if_false] at hs'
  subst hs'
  constructor
  · rw [fsRemoveTree_marker_files, fsWriteFile_marker_files]
    exact dictLookup_dictInsert_self _ _ _
  · exact not_mem_fsRemoveTree_self _ _

/-- C3: for every dispatch where the external process exits non-zero, no
completion marker is written (the marker files are untouched), the
attempt's work directory is left in place, an `analysis_failed` event is
logged, and the loop proceeds to the remaining configured pipelines. -/
theorem C3_failure_logged_workdir_kept_loop_continues
    (cfg : Config) (home : String) (env : AttemptEnv) (s s' : DispatchState)
    (p : PipelineConfig) (runId : String)
    (hstep : stepPipeline cfg home env s p = (s', none))
    (hexit : env.exit_code ≠ 0)
    (hrid : dictLookup "sequencing_run_id" s.run = some runId) :
    s'.fs.marker_files = s.fs.marker_files
    ∧ workDirOf cfg runId env.now_stamp ∈ s'.fs.dirs
    ∧ (∃ joined, s'.events = s.events ++
        [Event.analysis_started runId joined, Event.analysis_failed runId joined])
    ∧ (∀ (envF : Nat → AttemptEnv) (i : Nat) (rest : List PipelineConfig),
        envF i = env →
        analyzeRunAux cfg home envF (p :: rest) i s
          = analyzeRunAux cfg home envF rest (i + 1) s') := by
  obtain ⟨short2, runId2, rd, cmd, hsn2, hrid2, hrd2, hap2, hs'⟩ :=
    stepPipeline_ok_spec cfg home env s s' p hstep
  rw [hrid] at hrid2
  injection hrid2 with hridEq
  subst hridEq
  rw [if_neg hexit] at hs'
  subst hs'
  refine ⟨fsCreateDir_marker_files _ _, mem_fsCreateDir_self _ _, ⟨_, rfl⟩, ?_⟩
  intro envF i rest henv
  exact analyzeRunAux_cons_ok cfg home envF p rest i s _ (by rw [henv]; exact hstep)

/-- C5: a pipeline parameter configured as the `null` sentinel resolves to
the run descriptor's field of the same name — the dispatcher has first
written `fastq_input` (= the run's `run_dir`) and `outdir` (= the
pipeline's output directory) onto the descriptor, so those flags resolve
to them — while a concretely configured value is used as-is, regardless of
the run descriptor. -/
theorem C5_parameter_resolution
    (run run' : List (String × String)) (od rd : String)
    (hrd : dictLookup "run_dir" run = some rd)
    (hupd : updateRunFields run od = .ok run') :
    (∀ flag (w : Value), resolveParam run' flag (some w) = .ok w)
    ∧ (∀ flag x, dictLookup flag run' = some x →
        resolveParam run' flag none = .ok (.str x))
    ∧ dictLookup "fastq_input" run' = some rd
    ∧ dictLookup "outdir" run' = some od := by
  rw [updateRunFields_ok_iff] at hupd
  obtain ⟨rd2, hrd2, hrun'⟩ := hupd
  rw [hrd] at hrd2
  injection hrd2 with hrdEq
  subst hrdEq
  subst hrun'
  refine ⟨fun flag w => rfl, fun flag x hx => ?_, ?_, ?_⟩
  · simp [resolveParam, dictGet, hx, Except.map]
  · rw [dictLookup_dictInsert_ne _ _ _ _ (by decide)]
    exact dictLookup_dictInsert_self _ _ _
  · exact dictLookup_dictInsert_self _ _ _

/-- C7 (amended): a post-success work-directory deletion failure is
swallowed by `ignore_errors=True`: no `delete_analysis_work_dir_failed`
event is emitted for it (the only new events are `analysis_started`,
`analysis_completed` and — despite the failed deletion — an
`analysis_work_dir_deleted` event), the completion marker remains, the
work directory is still present, and no error escalates (the loop
iteration still returns normally, as the `(s', none)` result shows). -/
theorem C7_amended_deletion_failure_silently_ignored
    (cfg : Config) (home : String) (env : AttemptEnv) (s s' : DispatchState)
    (p : PipelineConfig) (short runId : String)
    (hstep : stepPipeline cfg home env s p = (s', none))
    (hexit : env.exit_code = 0)
    (hrm : env.rmtree_fails = true)
    (hshort : pipelineShortName p.pipeline_name = .ok short)
    (hrid : dictLookup "sequencing_run_id" s.run = some runId) :
    (∀ ev ∈ s'.events, isDeleteFailedEvent ev = true → ev ∈ s.events)
    ∧ dictLookup
        (markerPathFor
          (analysisOutputDirFor cfg runId short (pipelineMinorVersion p.pipeline_version)))
        s'.fs.marker_files
        = some [("timestamp_analysis_start", env.ts_start),
                ("timestamp_analysis_complete", env.ts_complete)]
    ∧ workDirOf cfg runId env.now_stamp ∈ s'.fs.dirs
    ∧ (∃ joined, s'.events = s.events ++
        [Event.analysis_started runId joined,
         Event.analysis_completed runId joined,
         Event.analysis_work_dir_deleted runId (workDirOf cfg runId env.now_stamp)]) := by
  obtain ⟨short2, runId2, rd, cmd, hsn2, hrid2, hrd2, hap2, hs'⟩ :=
    stepPipeline_ok_spec cfg home env s s' p hstep
  rw [hshort] at hsn2
  injection hsn2 with hshortEq
  rw [hrid] at hrid2
  injection hrid2 with hridEq
  subst hshortEq hridEq
  rw [if_pos hexit] at hs'
  rw [hrm] at hs'
  simp only [if_true] at hs'
  subst hs'
  refine ⟨?_, ?_, ?_, ⟨_, rfl⟩⟩
  · intro ev hev hdel
    simp only [List.mem_append, List.mem_cons, List.not_mem_nil, or_false] at hev
    rcases hev with h | h | h | h
    · exact h
    all_goals rw [h] at hdel; exact absurd hdel (by simp [isDeleteFailedEvent])
  · rw [fsWriteFile_marker_files]
    exact dictLookup_dictInsert_self _ _ _
  · rw [fsWriteFile_dirs]
    exact mem_fsCreateDir_self _ _

/-- Witness for C2 at a concrete successful dispatch. -/
theorem C2_witness :
    dictLookup
      (markerPathFor
        (analysisOutputDirFor exConfig exGridionName "routine-nanopore-qc"
          (pipelineMinorVersion exPipeline.pipeline_version)))
      (stepPipeline exConfig "/home/user" exEnvOk exDispatchStart exPipeline).1.fs.marker_files
      = some [("timestamp_analysis_start", exEnvOk.ts_start),
              ("timestamp_analysis_complete", exEnvOk.ts_complete)]
    ∧ workDirOf exConfig exGridionName exEnvOk.now_stamp
        ∉ (stepPipeline exConfig "/home/user" exEnvOk exDispatchStart exPipeline).1.fs.dirs :=
  C2_success_writes_marker_and_removes_workdir exConfig "/home/user" exEnvOk
    exDispatchStart (stepPipeline exConfig "/home/user" exEnvOk exDispatchStart exPipeline).1
    exPipeline "routine-nanopore-qc" exGridionName rfl rfl rfl rfl rfl

/-- Witness for C3 at a concrete failing dispatch (exit status 1). -/
theorem C3_witness :
    (stepPipeline exConfig "/home/user" exEnvBad exDispatchStart exPipeline).1.fs.marker_files
      = exDispatchStart.fs.marker_files
    ∧ workDirOf exConfig exGridionName exEnvBad.now_stamp
        ∈ (stepPipeline exConfig "/home/user" exEnvBad exDispatchStart exPipeline).1.fs.dirs :=
  ⟨(C3_failure_logged_workdir_kept_loop_continues exConfig "/home/user" exEnvBad
      exDispatchStart (stepPipeline exConfig "/home/user" exEnvBad exDispatchStart exPipeline).1
      exPipeline exGridionName rfl (by decide) rfl).1,
   (C3_failure_logged_workdir_kept_loop_continues exConfig "/home/user" exEnvBad
      exDispatchStart (stepPipeline exConfig "/home/user" exEnvBad exDispatchStart exPipeline).1
      exPipeline exGridionName rfl (by decide) rfl).2.1⟩

/-- Witness for C5 at a concrete descriptor: the sentinel resolves to the
descriptor's `fastq_input` field (previously set to the run's directory),
a concrete value is used as-is, and `outdir` was written on first. -/
theorem C5_witness :
    resolveParam
      (dictInsert "outdir" "/analysis/odX"
        (dictInsert "fastq_input" ("/data/fastq/" ++ exGridionName) exRun))
      "threads" (some (.int 4)) = .ok (.int 4)
    ∧ resolveParam
        (dictInsert "outdir" "/analysis/odX"
          (dictInsert "fastq_input" ("/data/fastq/" ++ exGridionName) exRun))
        "fastq_input" none = .ok (.str ("/data/fastq/" ++ exGridionName))
    ∧ dictLookup "outdir"
        (dictInsert "outdir" "/analysis/odX"
          (dictInsert "fastq_input" ("/data/fastq/" ++ exGridionName) exRun))
        = some "/analysis/odX" :=
  ⟨(C5_parameter_resolution exRun
      (dictInsert "outdir" "/analysis/odX"
        (dictInsert "fastq_input" ("/data/fastq/" ++ exGridionName) exRun))
      "/analysis/odX" ("/data/fastq/" ++ exGridionName) rfl rfl).1 "threads" (.int 4),
   (C5_parameter_resolution exRun
      (dictInsert "outdir" "/analysis/odX"
        (dictInsert "fastq_input" ("/data/fastq/" ++ exGridionName) exRun))
      "/analysis/odX" ("/data/fastq/" ++ exGridionName) rfl rfl).2.1 "fastq_input" _
     ((C5_parameter_resolution exRun
        (dictInsert "outdir" "/analysis/odX"
          (dictInsert "fastq_input" ("/data/fastq/" ++ exGridionName) exRun))
        "/analysis/odX" ("/data/fastq/" ++ exGridionName) rfl rfl).2.2.1),
   (C5_parameter_resolution exRun
      (dictInsert "outdir" "/analysis/odX"
        (dictInsert "fastq_input" ("/data/fastq/" ++ exGridionName) exRun))
      "/analysis/odX" ("/data/fastq/" ++ exGridionName) rfl rfl).2.2.2⟩

/-- Counterexample to C7 as stated: a concrete dispatch whose external
process exits 0 and whose work-directory deletion fails (the directory is
still present afterward), yet the event log contains no
`delete_analysis_work_dir_failed` event — instead an
`analysis_work_dir_deleted` event is logged. -/
theorem C7_counterexample :
    exEnvRmFail.exit_code = 0
    ∧ exEnvRmFail.rmtree_fails = true
    ∧ (stepPipeline exConfig "/home/user" exEnvRmFail exDispatchStart exPipeline).2 = none
    ∧ workDirOf exConfig exGridionName exEnvRmFail.now_stamp
        ∈ (stepPipeline exConfig "/home/user" exEnvRmFail exDispatchStart exPipeline).1.fs.dirs
    ∧ ((stepPipeline exConfig "/home/user" exEnvRmFail exDispatchStart
          exPipeline).1.events.filter isDeleteFailedEvent) = []
    ∧ Event.analysis_work_dir_deleted exGridionName
        (workDirOf exConfig exGridionName exEnvRmFail.now_stamp)
        ∈ (stepPipeline exConfig "/home/user" exEnvRmFail exDispatchStart exPipeline).1.events := by
  decide

/-- Witness for C7 (amended) at the same concrete deletion-failure
dispatch: the completion marker remains and the work directory is still
present. -/
theorem C7_witness :
    dictLookup
      (markerPathFor
        (analysisOutputDirFor exConfig exGridionName "routine-nanopore-qc"
          (pipelineMinorVersion exPipeline.pipeline_version)))
      (stepPipeline exConfig "/home/user" exEnvRmFail exDispatchStart
        exPipeline).1.fs.marker_files
      = some [("timestamp_analysis_start", exEnvRmFail.ts_start),
              ("timestamp_analysis_complete", exEnvRmFail.ts_complete)]
    ∧ workDirOf exConfig exGridionName exEnvRmFail.now_stamp
        ∈ (stepPipeline exConfig "/home/user" exEnvRmFail exDispatchStart
            exPipeline).1.fs.dirs :=
  ⟨(C7_amended_deletion_failure_silently_ignored exConfig "/home/user" exEnvRmFail
      exDispatchStart
      (stepPipeline exConfig "/home/user" exEnvRmFail exDispatchStart exPipeline).1
      exPipeline "routine-nanopore-qc" exGridionName rfl rfl rfl rfl rfl).2.1,
   (C7_amended_deletion_failure_silently_ignored exConfig "/home/user" exEnvRmFail
      exDispatchStart
      (stepPipeline exConfig "/home/user" exEnvRmFail exDispatchStart exPipeline).1
      exPipeline "routine-nanopore-qc" exGridionName rfl rfl rfl rfl rfl).2.2.1⟩

/-! ## C8: the constructed command line is entirely strings -/

theorem addParams_all_str (run : List (String × String))
    (ps : List (String × Option Value)) (cmd out : List Value)
    (hin : ∀ v ∈ cmd, ∃ s0, v = Value.str s0)
    (h : addParams run ps cmd = .ok out) :
    ∀ v ∈ out, ∃ s0, v = Value.str s0 := by
  induction ps generalizing cmd with
  | nil =>
    unfold addParams at h
    injection h with h
    subst h
    exact hin
  | cons pr rest ih =>
    obtain ⟨flag, cv⟩ := pr
    unfold addParams at h
    cases hr : resolveParam run flag cv with
    | error e => rw [hr] at h; simp at h
    | ok v =>
      rw [hr] at h
      refine ih _ (fun w hw => ?_) h
      rcases List.mem_map.mp hw with ⟨u, _, he⟩
      exact ⟨valueToString u, he.symm⟩

theorem baseCommand_all_str (p : PipelineConfig) (home workdir tracePath : String) :
    ∀ v ∈ baseCommand p home workdir tracePath, ∃ s0, v = Value.str s0 := by
  intro v hv
  simp only [baseCommand, List.mem_cons, List.not_mem_nil, or_false] at hv
  rcases hv with h|h|h|h|h|h|h|h|h|h|h|h|h <;> exact ⟨_, h⟩

theorem withEmailFlag_all_str (cfg : Config) (cmd : List Value)
    (hin : ∀ v ∈ cmd, ∃ s0, v = Value.str s0) :
    ∀ v ∈ withEmailFlag cfg cmd, ∃ s0, v = Value.str s0 := by
  intro v hv
  unfold withEmailFlag at hv
  rcases hse : cfg.send_notification_emails with _ | b
  · rw [hse] at hv
    exact hin v hv
  · cases b
    · rw [hse] at hv
      exact hin v hv
    · rw [hse] at hv
      simp only [List.mem_append, List.mem_cons, List.not_mem_nil, or_false] at hv
      rcases hv with h | h | h
      · exact hin v h
      · exact ⟨_, h⟩
      · exact ⟨_, h⟩

/-- Each loop iteration either leaves the invocation list unchanged (when
it raises) or appends exactly one command whose elements are all strings. -/
theorem stepPipeline_invocations_spec (cfg : Config) (home : String)
    (env : AttemptEnv) (s s' : DispatchState) (p : PipelineConfig)
    (r : Option Err) (h : stepPipeline cfg home env s p = (s', r)) :
    s'.invocations = s.invocations
    ∨ ∃ cmd, s'.invocations = s.invocations ++ [cmd]
        ∧ ∀ v ∈ cmd, ∃ s0, v = Value.str s0 := by
  unfold stepPipeline at h
  cases hsn : pipelineShortName p.pipeline_name with
  | error e =>
    rw [hsn] at h
    obtain ⟨hs, _⟩ := Prod.mk.injEq _ _ _ _ ▸ h
    rw [← hs]
    exact Or.inl rfl
  | ok short =>
  rw [hsn] at h
  simp only at h
  cases hg1 : dictGet s.run "sequencing_run_id" with
  | error e =>
    rw [hg1] at h
    obtain ⟨hs, _⟩ := Prod.mk.injEq _ _ _ _ ▸ h
    rw [← hs]
    exact Or.inl rfl
  | ok runId =>
  rw [hg1] at h
  simp only at h
  cases hup : updateRunFields s.run
      (analysisOutputDirFor cfg runId short (pipelineMinorVersion p.pipeline_version)) with
  | error e =>
    rw [hup] at h
    obtain ⟨hs, _⟩ := Prod.mk.injEq _ _ _ _ ▸ h
    rw [← hs]
    exact Or.inl rfl
  | ok run2 =>
  rw [hup] at h
  simp only at h
  cases hap : addParams run2 p.pipeline_parameters
      (withEmailFlag cfg (baseCommand p home (workDirOf cfg runId env.now_stamp)
        (tracePathFor
          (analysisOutputDirFor cfg runId short (pipelineMinorVersion p.pipeline_version))
          runId))) with
  | error e =>
    rw [hap] at h
    obtain ⟨hs, _⟩ := Prod.mk.injEq _ _ _ _ ▸ h
    rw [← hs]
    exact Or.inl rfl
  | ok cmd =>
  rw [hap] at h
  simp only at h
  have hstr : ∀ v ∈ cmd, ∃ s0, v = Value.str s0 :=
    addParams_all_str run2 p.pipeline_parameters _ cmd
      (withEmailFlag_all_str cfg _ (baseCommand_all_str p home _ _)) hap
  by_cases hexit : env.exit_code = 0
  · rw [if_pos hexit] at h
    obtain ⟨hs, _⟩ := Prod.mk.injEq _ _ _ _ ▸ h
    rw [← hs]
    exact Or.inr ⟨cmd, rfl, hstr⟩
  · rw [if_neg hexit] at h
    obtain ⟨hs, _⟩ := Prod.mk.injEq _ _ _ _ ▸ h
    rw [← hs]
    exact Or.inr ⟨cmd, rfl, hstr⟩

theorem analyzeRunAux_invocations_str (cfg : Config) (home : String)
    (envF : Nat → AttemptEnv) :
    ∀ (ps : List PipelineConfig) (i : Nat) (s : DispatchState),
      (∀ cmd ∈ s.invocations, ∀ v ∈ cmd, ∃ s0, v = Value.str s0) →
      ∀ cmd ∈ (analyzeRunAux cfg home envF ps i s).1.invocations,
        ∀ v ∈ cmd, ∃ s0, v = Value.str s0 := by
  intro ps
  induction ps with
  | nil =>
    intro i s hin
    simpa [analyzeRunAux] using hin
  | cons p rest ih =>
    intro i s hin
    have hnext : ∀ s2 r, stepPipeline cfg home (envF i) s p = (s2, r) →
        ∀ cmd ∈ s2.invocations, ∀ v ∈ cmd, ∃ s0, v = Value.str s0 := by
      intro s2 r hstep cmd hc
      rcases stepPipeline_invocations_spec cfg home (envF i) s s2 p r hstep with hsame | ⟨c2, happ, hstr⟩
      · exact hin cmd (hsame ▸ hc)
      · rw [happ] at hc
        rcases List.mem_append.mp hc with hc2 | hc2
        · exact hin cmd hc2
        · rw [List.mem_singleton.mp hc2]
          exact hstr
    cases hstep : stepPipeline cfg home (envF i) s p with
    | mk s2 r =>
      cases r with
      | none =>
        rw [analyzeRunAux_cons_ok cfg home envF p rest i s s2 hstep]
        exact ih (i + 1) s2 (hnext s2 none hstep)
      | some e =>
        simp only [analyzeRunAux, hstep]
        exact hnext s2 (some e) hstep

/-- C8: every element of every command line handed to the external engine
by `analyze_run` is a string (all values, configured parameter values
included, have been coerced to text). -/
theorem C8_command_elements_all_strings (cfg : Config) (home : String)
    (envF : Nat → AttemptEnv) (run : List (String × String)) (fs : FSState)
    (cmd : List Value) (v : Value)
    (hc : cmd ∈ (analyzeRun cfg home envF run fs).1.invocations)
    (hv : v ∈ cmd) :
    ∃ s0, v = Value.str s0 := by
  unfold analyzeRun at hc
  exact analyzeRunAux_invocations_str cfg home envF cfg.pipelines 0
    { run := run, fs := fs, events := [], invocations := [] } (by simp) cmd hc v hv

/-- Witness for C8: in the concrete dispatch the integer-configured
`threads` value appears on the command line as the string `4`. -/
theorem C8_witness :
    Value.str "4" ∈ ((analyzeRun exConfig "/home/user" (fun _ => exEnvOk) exRun
        { marker_files := [], dirs := [] }).1.invocations.headD [])
    ∧ ∃ s0, Value.str "4" = Value.str s0 :=
  ⟨by decide,
   C8_command_elements_all_strings exConfig "/home/user" (fun _ => exEnvOk) exRun
     { marker_files := [], dirs := [] }
     ((analyzeRun exConfig "/home/user" (fun _ => exEnvOk) exRun
        { marker_files := [], dirs := [] }).1.invocations.headD [])
     (Value.str "4") (by decide) (by decide)⟩

/-! ## C9: the run descriptor after `analyze_run` -/

/-- Lookups of keys other than the two written ones pass through the
lines 107-108 update. -/
theorem dictLookup_after_update (k : String) (run : List (String × String))
    (od rd : String) (hk1 : k ≠ "outdir") (hk2 : k ≠ "fastq_input") :
    dictLookup k (dictInsert "outdir" od (dictInsert "fastq_input" rd run))
      = dictLookup k run := by
  rw [dictLookup_dictInsert_ne _ _ _ _ hk1, dictLookup_dictInsert_ne _ _ _ _ hk2]

/-- A non-raising loop iteration replaces the descriptor by the
lines-107-108 update computed from its own lookups. -/
theorem stepPipeline_ok_run (cfg : Config) (home : String) (env : AttemptEnv)
    (s s' : DispatchState) (p : PipelineConfig)
    (h : stepPipeline cfg home env s p = (s', none)) :
    ∃ short runId rd,
      pipelineShortName p.pipeline_name = .ok short
      ∧ dictLookup "sequencing_run_id" s.run = some runId
      ∧ dictLookup "run_dir" s.run = some rd
      ∧ s'.run = dictInsert "outdir"
          (analysisOutputDirFor cfg runId short (pipelineMinorVersion p.pipeline_version))
          (dictInsert "fastq_input" rd s.run) := by
  obtain ⟨short, runId, rd, cmd, h1, h2, h3, _, h5⟩ :=
    stepPipeline_ok_spec cfg home env s s' p h
  refine ⟨short, runId, rd, h1, h2, h3, ?_⟩
  by_cases hexit : env.exit_code = 0
  · rw [if_pos hexit] at h5
    rw [h5]
  · rw [if_neg hexit] at h5
    rw [h5]

/-- Invariant of the pipeline loop: the original descriptor fields are
preserved, and after at least one iteration `fastq_input` holds the run
directory and `outdir` holds the last pipeline's output directory. -/
theorem analyzeRunAux_run_spec (cfg : Config) (home : String)
    (envF : Nat → AttemptEnv) :
    ∀ (ps : List PipelineConfig) (i : Nat) (s s' : DispatchState)
      (runId rd : String),
      analyzeRunAux cfg home envF ps i s = (s', none) →
      dictLookup "sequencing_run_id" s.run = some runId →
      dictLookup "run_dir" s.run = some rd →
      (dictLookup "run_dir" s'.run = some rd
       ∧ dictLookup "sequencing_run_id" s'.run = some runId
       ∧ dictLookup "instrument_type" s'.run = dictLookup "instrument_type" s.run
       ∧ (ps ≠ [] →
           (dictLookup "fastq_input" s'.run = some rd
            ∧ ∃ lastP short, ps.getLast? = some lastP
                ∧ pipelineShortName lastP.pipeline_name = .ok short
                ∧ dictLookup "outdir" s'.run
                    = some (analysisOutputDirFor cfg runId short
                        (pipelineMinorVersion lastP.pipeline_version))))) := by
  intro ps
  induction ps with
  | nil =>
    intro i s s' runId rd h h1 h2
    simp only [analyzeRunAux, Prod.mk.injEq, and_true] at h
    subst h
    exact ⟨h2, h1, rfl, fun hne => absurd rfl hne⟩
  | cons p rest ih =>
    intro i s s' runId rd h h1 h2
    cases hstep : stepPipeline cfg home (envF i) s p with
    | mk s2 r =>
      cases r with
      | some e =>
        simp only [analyzeRunAux, hstep, Prod.mk.injEq] at h
        exact absurd h.2 (by simp)
      | none =>
        rw [analyzeRunAux_cons_ok cfg home envF p rest i s s2 hstep] at h
        obtain ⟨short, runId2, rd2, hsn, hrid2, hrd2, hrun2⟩ :=
          stepPipeline_ok_run cfg home (envF i) s s2 p hstep
        rw [h1] at hrid2
        injection hrid2 with e1
        subst e1
        rw [h2] at hrd2
        injection hrd2 with e2
        subst e2
        have l1 : dictLookup "run_dir" s2.run = some rd := by
          rw [hrun2, dictLookup_after_update _ _ _ _ (by decide) (by decide)]
          exact h2
        have l2 : dictLookup "sequencing_run_id" s2.run = some runId := by
          rw [hrun2, dictLookup_after_update _ _ _ _ (by decide) (by decide)]
          exact h1
        have l3 : dictLookup "instrument_type" s2.run
            = dictLookup "instrument_type" s.run := by
          rw [hrun2, dictLookup_after_update _ _ _ _ (by decide) (by decide)]
        cases rest with
        | nil =>
          simp only [analyzeRunAux, Prod.mk.injEq, and_true] at h
          subst h
          refine ⟨l1, l2, l3, fun _ => ⟨?_, p, short, rfl, hsn, ?_⟩⟩
          · rw [hrun2, dictLookup_dictInsert_ne _ _ _ _ (by decide)]
            exact dictLookup_dictInsert_self _ _ _
          · rw [hrun2]
            exact dictLookup_dictInsert_self _ _ _
        | cons q rest2 =>
          have ihres := ih (i + 1) s2 s' runId rd h l2 l1
          refine ⟨ihres.1, ihres.2.1, ihres.2.2.1.trans l3, fun _ => ?_⟩
          obtain ⟨hf, lastP, short3, hlast, hsn3, hout⟩ := ihres.2.2.2 (by simp)
          exact ⟨hf, lastP, short3,
            by rw [List.getLast?_cons_cons]; exact hlast, hsn3, hout⟩

/-- C9: `analyze_run` mutates its run-descriptor argument: on a normal
return with at least one configured pipeline, the descriptor additionally
contains `fastq_input` equal to its `run_dir` and `outdir` equal to the
output directory of the last configured pipeline, while `run_dir`,
`sequencing_run_id` and `instrument_type` are unchanged. -/
theorem C9_analyze_run_mutates_descriptor (cfg : Config) (home : String)
    (envF : Nat → AttemptEnv) (run : List (String × String)) (fs : FSState)
    (s' : DispatchState) (lastP : PipelineConfig) (runId rd : String)
    (hres : analyzeRun cfg home envF run fs = (s', none))
    (hlast : cfg.pipelines.getLast? = some lastP)
    (hrid : dictLookup "sequencing_run_id" run = some runId)
    (hrd : dictLookup "run_dir" run = some rd) :
    dictLookup "run_dir" s'.run = some rd
    ∧ dictLookup "sequencing_run_id" s'.run = some runId
    ∧ dictLookup "instrument_type" s'.run = dictLookup "instrument_type" run
    ∧ dictLookup "fastq_input" s'.run = some rd
    ∧ ∃ short, pipelineShortName lastP.pipeline_name = .ok short
        ∧ dictLookup "outdir" s'.run
            = some (analysisOutputDirFor cfg runId short
                (pipelineMinorVersion lastP.pipeline_version)) := by
  unfold analyzeRun at hres
  have hne : cfg.pipelines ≠ [] := by
    intro h0
    rw [h0] at hlast
    simp at hlast
  obtain ⟨a1, a2, a3, a4⟩ :=
    analyzeRunAux_run_spec cfg home envF cfg.pipelines 0
      { run := run, fs := fs, events := [], invocations := [] } s' runId rd
      hres hrid hrd
  obtain ⟨hf, lastP2, short, hlast2, hsn, hout⟩ := a4 hne
  rw [hlast] at hlast2
  injection hlast2 with e
  subst e
  exact ⟨a1, a2, a3, hf, short, hsn, hout⟩

/-- Witness for C9 at the concrete single-pipeline dispatch. -/
theorem C9_witness :
    dictLookup "fastq_input"
      (analyzeRun exConfig "/home/user" (fun _ => exEnvOk) exRun
        { marker_files := [], dirs := [] }).1.run
      = some ("/data/fastq/" ++ exGridionName)
    ∧ dictLookup "sequencing_run_id"
        (analyzeRun exConfig "/home/user" (fun _ => exEnvOk) exRun
          { marker_files := [], dirs := [] }).1.run
        = some exGridionName :=
  ⟨(C9_analyze_run_mutates_descriptor exConfig "/home/user" (fun _ => exEnvOk)
      exRun { marker_files := [], dirs := [] }
      (analyzeRun exConfig "/home/user" (fun _ => exEnvOk) exRun
        { marker_files := [], dirs := [] }).1
      exPipeline exGridionName ("/data/fastq/" ++ exGridionName)
      rfl rfl rfl rfl).2.2.2.1,
   (C9_analyze_run_mutates_descriptor exConfig "/home/user" (fun _ => exEnvOk)
      exRun { marker_files := [], dirs := [] }
      (analyzeRun exConfig "/home/user" (fun _ => exEnvOk) exRun
        { marker_files := [], dirs := [] }).1
      exPipeline exGridionName ("/data/fastq/" ++ exGridionName)
      rfl rfl rfl rfl).2.1⟩

/-! ## C10: the `split('/')[1]` requirement on pipeline names -/

theorem pySplit_ne_nil (sep : Char) (s : List Char) : pySplit sep s ≠ [] := by
  induction s with
  | nil => simp [pySplit]
  | cons c rest ih =>
    unfold pySplit
    by_cases h : c = sep
    · simp [h]
    · simp only [h, if_false]
      cases hg : pySplit sep rest with
      | nil => simp
      | cons g tl => simp

theorem pySplit_no_sep (sep : Char) (s : List Char) (h : sep ∉ s) :
    pySplit sep s = [s] := by
  induction s with
  | nil => rfl
  | cons c rest ih =>
    have hc : ¬(c = sep) := fun he => h (he ▸ List.mem_cons_self c rest)
    have hrest : sep ∉ rest := fun hm => h (List.mem_cons_of_mem c hm)
    simp [pySplit, hc, ih hrest]

theorem pySplit_of_mem_sep (sep : Char) (s : List Char) (h : sep ∈ s) :
    ∃ a b tl, pySplit sep s = a :: b :: tl := by
  induction s with
  | nil => simp at h
  | cons c rest ih =>
    by_cases hc : c = sep
    · subst hc
      cases hg : pySplit c rest with
      | nil => exact absurd hg (pySplit_ne_nil _ _)
      | cons g tl => exact ⟨[], g, tl, by simp [pySplit, hg]⟩
    · have hrest : sep ∈ rest := by
        rcases List.mem_cons.mp h with h1 | h1
        · exact absurd h1.symm hc
        · exact h1
      obtain ⟨a, b, tl, hab⟩ := ih hrest
      exact ⟨c :: a, b, tl, by simp [pySplit, hc, hab]⟩

theorem pipelineShortName_error_of_no_slash (name : String)
    (h : '/' ∉ name.data) :
    pipelineShortName name = .error .indexError := by
  unfold pipelineShortName
  rw [pySplit_no_sep _ _ h]

theorem pipelineShortName_ok_of_slash (name : String) (h : '/' ∈ name.data) :
    ∃ short, pipelineShortName name = .ok short := by
  obtain ⟨a, b, tl, hab⟩ := pySplit_of_mem_sep '/' name.data h
  refine ⟨String.mk (pyReplaceChar '_' '-' b), ?_⟩
  unfold pipelineShortName
  rw [hab]

theorem updateRunFields_error_is_keyError (run : List (String × String))
    (od : String) (e : Err) (h : updateRunFields run od = .error e) :
    ∃ k, e = .keyError k := by
  unfold updateRunFields at h
  cases hg : dictGet run "run_dir" with
  | error e2 =>
    rw [hg] at h
    injection h with he
    subst he
    exact ⟨_, dictGet_error_is_keyError _ _ _ hg⟩
  | ok rd => rw [hg] at h; simp at h

theorem addParams_error_is_keyError (run : List (String × String))
    (ps : List (String × Option Value)) (cmd : List Value) (e : Err)
    (h : addParams run ps cmd = .error e) :
    ∃ k, e = .keyError k := by
  induction ps generalizing cmd with
  | nil => unfold addParams at h; simp at h
  | cons pr rest ih =>
    obtain ⟨flag, cv⟩ := pr
    unfold addParams at h
    cases hr : resolveParam run flag cv with
    | error e2 =>
      rw [hr] at h
      injection h with he
      subst he
      unfold resolveParam at hr
      cases cv with
      | some v => simp at hr
      | none =>
        cases hg : dictGet run flag with
        | error e3 =>
          rw [hg] at hr
          simp only [Except.map] at hr
          injection hr with he2
          subst he2
          exact ⟨_, dictGet_error_is_keyError _ _ _ hg⟩
        | ok v =>
          rw [hg] at hr
          simp [Except.map] at hr
    | ok v =>
      rw [hr] at h
      exact ih _ h

/-- When the pipeline name contains `/`, a loop iteration can raise only
`KeyError`s, never the `IndexError` of `split('/')[1]`. -/
theorem stepPipeline_error_not_indexError (cfg : Config) (home : String)
    (env : AttemptEnv) (s s' : DispatchState) (p : PipelineConfig) (e : Err)
    (hslash : '/' ∈ p.pipeline_name.data)
    (h : stepPipeline cfg home env s p = (s', some e)) :
    e ≠ .indexError := by
  obtain ⟨short, hsn⟩ := pipelineShortName_ok_of_slash _ hslash
  unfold stepPipeline at h
  rw [hsn] at h
  simp only at h
  cases hg1 : dictGet s.run "sequencing_run_id" with
  | error e2 =>
    rw [hg1] at h
    obtain ⟨_, he⟩ := Prod.mk.injEq _ _ _ _ ▸ h
    injection he with he2
    rw [← he2]
    obtain ⟨k, hk⟩ := (⟨_, dictGet_error_is_keyError _ _ _ hg1⟩ :
      ∃ k, e2 = Err.keyError k)
    rw [hk]
    simp
  | ok runId =>
  rw [hg1] at h
  simp only at h
  cases hup : updateRunFields s.run
      (analysisOutputDirFor cfg runId short (pipelineMinorVersion p.pipeline_version)) with
  | error e2 =>
    rw [hup] at h
    obtain ⟨_, he⟩ := Prod.mk.injEq _ _ _ _ ▸ h
    injection he with he2
    rw [← he2]
    obtain ⟨k, hk⟩ := updateRunFields_error_is_keyError _ _ _ hup
    rw [hk]
    simp
  | ok run2 =>
  rw [hup] at h
  simp only at h
  cases hap : addParams run2 p.pipeline_parameters
      (withEmailFlag cfg (baseCommand p home (workDirOf cfg runId env.now_stamp)
        (tracePathFor
          (analysisOutputDirFor cfg runId short (pipelineMinorVersion p.pipeline_version))
          runId))) with
  | error e2 =>
    rw [hap] at h
    obtain ⟨_, he⟩ := Prod.mk.injEq _ _ _ _ ▸ h
    injection he with he2
    rw [← he2]
    obtain ⟨k, hk⟩ := addParams_error_is_keyError _ _ _ _ hap
    rw [hk]
    simp
  | ok cmd =>
  rw [hap] at h
  simp only at h
  by_cases hexit : env.exit_code = 0
  · rw [if_pos hexit] at h
    obtain ⟨_, he⟩ := Prod.mk.injEq _ _ _ _ ▸ h
    simp at he
  · rw [if_neg hexit] at h
    obtain ⟨_, he⟩ := Prod.mk.injEq _ _ _ _ ▸ h
    simp at he

theorem analyzeRunAux_not_indexError (cfg : Config) (home : String)
    (envF : Nat → AttemptEnv) :
    ∀ (ps : List PipelineConfig) (i : Nat) (s : DispatchState),
      (∀ q ∈ ps, '/' ∈ q.pipeline_name.data) →
      (analyzeRunAux cfg home envF ps i s).2 ≠ some .indexError := by
  intro ps
  induction ps with
  | nil =>
    intro i s _
    simp [analyzeRunAux]
  | cons p rest ih =>
    intro i s hall
    cases hstep : stepPipeline cfg home (envF i) s p with
    | mk s2 r =>
      cases r with
      | none =>
        rw [analyzeRunAux_cons_ok cfg home envF p rest i s s2 hstep]
        exact ih (i + 1) s2 (fun q hq => hall q (List.mem_cons_of_mem p hq))
      | some e =>
        simp only [analyzeRunAux, hstep]
        have hne := stepPipeline_error_not_indexError cfg home (envF i) s s2 p e
          (hall p (List.mem_cons_self p rest)) hstep
        simpa using hne

/-- C10: `analyze_run` requires every configured `pipeline_name` to
contain a `/` separator: when the first pipeline's name has none, it
raises `IndexError` before any external process is invoked; when every
configured name contains `/`, that error is unreachable. -/
theorem C10_pipeline_name_requires_slash (cfg : Config) (home : String)
    (envF : Nat → AttemptEnv) (run : List (String × String)) (fs : FSState)
    (p : PipelineConfig) (rest : List PipelineConfig) :
    (cfg.pipelines = p :: rest → '/' ∉ p.pipeline_name.data →
      (analyzeRun cfg home envF run fs).2 = some .indexError
      ∧ (analyzeRun cfg home envF run fs).1.invocations = [])
    ∧ ((∀ q ∈ cfg.pipelines, '/' ∈ q.pipeline_name.data) →
      (analyzeRun cfg home envF run fs).2 ≠ some .indexError) := by
  constructor
  · intro hps hnos
    unfold analyzeRun
    rw [hps]
    have hstep : stepPipeline cfg home (envF 0)
        { run := run, fs := fs, events := [], invocations := [] } p
        = ({ run := run, fs := fs, events := [], invocations := [] },
           some .indexError) := by
      unfold stepPipeline
      rw [pipelineShortName_error_of_no_slash _ hnos]
    simp [analyzeRunAux, hstep]
  · intro hall
    unfold analyzeRun
    exact analyzeRunAux_not_indexError cfg home envF cfg.pipelines 0 _ hall

/-- Witness for C10: the concrete config whose only pipeline is named
without a `/` makes `analyze_run` stop with the index error and an empty
invocation list. -/
theorem C10_witness :
    (analyzeRun exBadConfig "/home/user" (fun _ => exEnvOk) exRun
      { marker_files := [], dirs := [] }).2 = some .indexError
    ∧ (analyzeRun exBadConfig "/home/user" (fun _ => exEnvOk) exRun
        { marker_files := [], dirs := [] }).1.invocations = [] :=
  (C10_pipeline_name_requires_slash exBadConfig "/home/user" (fun _ => exEnvOk)
    exRun { marker_files := [], dirs := [] } exBadPipeline []).1 rfl (by decide)

end AutoNanoporeQC
